import Mathlib

/-!
# Verification of the rt-mbms-modem PHY control logic

Shallow embedding of `src/Phy.cpp` / `src/Phy.h` (5G-MAG rt-mbms-modem):
the subframe classifier (`Phy::is_cas_subframe`, `Phy::is_mbsfn_subframe`),
the MBSFN/MCCH scheduling engine (`Phy::mbsfn_config_for_tti`), the TMGI
string construction of `Phy::set_mbsfn_config`, the resource-block updates
of `Phy::cell_search` / `Phy::set_mch_scheduling_info` /
`Phy::set_nof_mbsfn_prb`, and the TTI recomputation of
`Phy::synchronize_subframe`.

Machine integers are modelled as `Nat` (resp. `Int` for C `int`) with
explicit `% 2^32` where 32-bit unsigned wrap-around matters.  Enumerated
SIB13 / MCCH fields (`mcch_repeat_period`, `mch_sched_period`, ...) are
modelled by the numeric value that `srsran::enum_to_number` returns for
them, which is how `Phy.cpp` consumes them.
-/

/-- `2^32`: modulus of C `unsigned` / `uint32_t` arithmetic. -/
def U32 : Nat := 4294967296

/-! ## Cell resource-block bookkeeping (`srsran_cell_t` slice)

Only the two fields of `srsran_cell_t` that the claims are about:
`nof_prb` (cell-wide resource blocks, from the MIB) and `mbsfn_prb`
(resource blocks used for MBSFN/PMCH). -/

structure CellPrb where
  nof_prb : Nat
  mbsfn_prb : Nat
  deriving DecidableEq, Repr

/-- `Phy.cpp:165-166`: on cell-search success the found cell is committed
and `_cell.mbsfn_prb = _cell.nof_prb`. -/
def cell_search_commit (c : CellPrb) : CellPrb :=
  { c with mbsfn_prb := c.nof_prb }

/-- `Phy.cpp:230-232` (`Phy::set_mch_scheduling_info`): if
`sib13.mbsfn_area_info_list[0].pmch_bandwidth != 0`, overwrite
`_cell.mbsfn_prb` with it; otherwise the cell is untouched. -/
def set_mch_scheduling_info_prb (c : CellPrb) (pmch_bandwidth : Nat) : CellPrb :=
  if pmch_bandwidth ≠ 0 then { c with mbsfn_prb := pmch_bandwidth } else c

/-- `Phy.h:158` (`Phy::set_nof_mbsfn_prb`): `_cell.mbsfn_prb = prb`. -/
def set_nof_mbsfn_prb (c : CellPrb) (prb : Nat) : CellPrb :=
  { c with mbsfn_prb := prb }

/-! ## Subframe classifier (`Phy.cpp:304-323`)

Both methods read only `_cell.mbms_dedicated` from the object state, so the
embedding takes that Bool as a parameter. -/

/-- `Phy::is_cas_subframe` (`Phy.cpp:304-312`). -/
def is_cas_subframe (mbms_dedicated : Bool) (tti : Nat) : Bool :=
  if mbms_dedicated then
    decide (tti % 40 = 0)
  else
    decide (tti % 10 = 0) || decide (tti % 10 = 4) ||
    decide (tti % 10 = 5) || decide (tti % 10 = 9)

/-- `Phy::is_mbsfn_subframe` (`Phy.cpp:314-323`). -/
def is_mbsfn_subframe (mbms_dedicated : Bool) (tti : Nat) : Bool :=
  if mbms_dedicated then
    ! is_cas_subframe mbms_dedicated tti
  else
    (! is_cas_subframe mbms_dedicated tti) &&
    (decide (tti % 10 = 1) || decide (tti % 10 = 2) || decide (tti % 10 = 3) ||
     decide (tti % 10 = 6) || decide (tti % 10 = 7) || decide (tti % 10 = 8))

/-! ## `Phy::synchronize_subframe` (`Phy.cpp:59-89`)

The srsRAN primitives it calls are external collaborators; the embedding is
parameterized by their results: `zerocopy_ret` (return of
`srsran_ue_sync_zerocopy`), `sf_idx` (`srsran_ue_sync_get_sfidx`),
`mib_ret` (return of `srsran_ue_mib_decode`), `decoded_sfn` (SFN unpacked
from the BCH payload) and `sfn_offset` (out-parameter of the MIB decode,
a C `int`).  The result is `some new_tti` when the function returns `true`
(after storing `_tti`), `none` when it returns `false`.
`kSfnOffset = 4`, `kMaxSfn = 1024`, `kSubframesPerFrame = 10`
(`Phy.cpp:36-38`). -/
def synchronize_subframe (mbms_dedicated : Bool) (zerocopy_ret : Int)
    (sf_idx : Nat) (mib_ret : Int) (decoded_sfn : Nat) (sfn_offset : Int) :
    Option Nat :=
  if zerocopy_ret < 0 then
    none
  else if zerocopy_ret = 1 then
    if sf_idx = 0 then
      if mib_ret = 1 then
        let sfn : Int :=
          if mbms_dedicated then
            ((decoded_sfn : Int) + sfn_offset * 4) % (U32 : Int) % 1024
          else
            ((decoded_sfn : Int) + sfn_offset) % (U32 : Int) % 1024
        some (sfn.toNat * 10)
      else none
    else none
  else none

/-! ## TMGI construction (`Phy::set_mbsfn_config`, `Phy.cpp:261-302`)

`sprintf(tmgi, "%06x%02x%02x%02x", ...)` is modelled by an exact emulation
of `%0wx`: lowercase hex digits, zero-padded on the left to width `w`,
more than `w` digits when the value needs them. -/

/-- Lowercase hex digit character for a nibble value `n < 16`. -/
def hexDigitChar (n : Nat) : Char :=
  if n < 10 then Char.ofNat (48 + n) else Char.ofNat (87 + n)

/-- Hex digits of `n`, least significant first, no leading zeros
(empty for `n = 0`).  `fuel ≥ n` makes the recursion structural. -/
def hexDigitsRev : Nat → Nat → List Char
  | 0, _ => []
  | _ + 1, 0 => []
  | fuel + 1, n + 1 =>
      hexDigitChar ((n + 1) % 16) :: hexDigitsRev fuel ((n + 1) / 16)

/-- Minimal-width lowercase hex rendering of `n` (`%x`), as characters. -/
def toHexMinChars (n : Nat) : List Char :=
  if n = 0 then ['0'] else (hexDigitsRev n n).reverse

/-- `sprintf` conversion `%0wx`, as characters: zero-padded on the left to
width `w`, longer when the value needs more than `w` digits. -/
def sprintf0x (w n : Nat) : List Char :=
  List.replicate (w - (toHexMinChars n).length) '0' ++ toHexMinChars n

/-- Field slice of `asn1::tmgi` as read by `Phy::set_mbsfn_config`:
3 service-identifier bytes, MCC digits, MNC digits, MNC digit count. -/
structure tmgi_t where
  serviced_id0 : Nat
  serviced_id1 : Nat
  serviced_id2 : Nat
  mcc0 : Nat
  mcc1 : Nat
  mcc2 : Nat
  mnc0 : Nat
  mnc1 : Nat
  mnc2 : Nat
  nof_mnc_digits : Nat
  deriving DecidableEq, Repr

/-- The TMGI string built at `Phy.cpp:287-294`:
`sprintf(tmgi, "%06x%02x%02x%02x",
  serviced_id[2] | serviced_id[1] << 8 | serviced_id[0] << 16,
  mcc[1] << 4 | mcc[0],
  (nof_mnc_digits == 2 ? 0xF : mnc[2]) << 4 | mcc[2],
  mnc[1] << 4 | mnc[0])`. -/
def tmgi_string (t : tmgi_t) : String :=
  String.mk (
    sprintf0x 6 (t.serviced_id2 ||| (t.serviced_id1 <<< 8) ||| (t.serviced_id0 <<< 16)) ++
    sprintf0x 2 ((t.mcc1 <<< 4) ||| t.mcc0) ++
    sprintf0x 2 (((if t.nof_mnc_digits = 2 then 15 else t.mnc2) <<< 4) ||| t.mcc2) ++
    sprintf0x 2 ((t.mnc1 <<< 4) ||| t.mnc0))

/-! ## MCCH message and SIB13 data model (srsran structs as used by Phy) -/

/-- Slice of `srsran::mbms_session_info_t` used by `Phy::set_mbsfn_config`. -/
structure mbms_session_info_t where
  tmgi : tmgi_t
  lc_ch_id : Nat
  deriving DecidableEq, Repr

/-- Slice of `srsran::pmch_info_t` used by `Phy`.  `mch_sched_period` holds
the number of radio frames `enum_to_number(mch_sched_period)` yields. -/
structure pmch_info_t where
  mch_sched_period : Nat
  sf_alloc_end : Nat
  data_mcs : Nat
  mbms_session_info_list : List mbms_session_info_t
  deriving DecidableEq, Repr

/-- Slice of `srsran::mcch_msg_t`: the PMCH list (its length plays the
role of `nof_pmch_info`). -/
structure mcch_msg_t where
  pmch_info_list : List pmch_info_t
  deriving DecidableEq, Repr

/-- Slice of `srsran::mbsfn_area_info_t::mcch_cfg` used by
`Phy::mbsfn_config_for_tti`; `mcch_repeat_period` and `sig_mcs` hold their
`enum_to_number` values. -/
structure mcch_cfg_t where
  mcch_repeat_period : Nat
  mcch_offset : Nat
  sig_mcs : Nat
  deriving DecidableEq, Repr

/-- Slice of `srsran::mbsfn_area_info_t` (`_sib13.mbsfn_area_info_list[0]`);
`non_mbsfn_region_length` holds `enum_to_number(non_mbsfn_region_len)`. -/
structure mbsfn_area_info_t where
  mbsfn_area_id : Nat
  non_mbsfn_region_length : Nat
  mcch_cfg : mcch_cfg_t
  deriving DecidableEq, Repr

/-- The `Phy` object state read by `mbsfn_config_for_tti`:
`_cell.mbms_dedicated`, `_mcch_configured`, `_mch_configured`,
`_decode_mcch`, `_sib13.mbsfn_area_info_list[0]`, `_mcch_table` and
`_mcch`. -/
structure PhyState where
  mbms_dedicated : Bool
  mcch_configured : Bool
  mch_configured : Bool
  decode_mcch : Bool
  area_info : mbsfn_area_info_t
  mcch_table : Fin 10 → Nat
  mcch : mcch_msg_t

/-- The `mtch_info_t` per-session record built by `Phy::set_mbsfn_config`. -/
structure mtch_info_t where
  tmgi : String
  dest : String
  lcid : Nat
  deriving DecidableEq, Repr

/-- The `mch_info_t` per-channel record built by `Phy::set_mbsfn_config`. -/
structure mch_info_t where
  mcs : Nat
  mtchs : List mtch_info_t
  deriving DecidableEq, Repr

/-- The `_mch_info` registry rebuilt by `Phy::set_mbsfn_config`
(`Phy.cpp:265-301`): one `mch_info_t` per PMCH entry, one `mtch_info_t`
per session with the TMGI string of `Phy.cpp:287-294` and the destination
looked up in `_dests` (a `std::map` whose `operator[]` defaults to `""`,
modelled by the total function `dests`). -/
def set_mbsfn_config_mch_info (dests : Nat → Nat → String) (m : mcch_msg_t) :
    List mch_info_t :=
  m.pmch_info_list.enum.map (fun ip =>
    { mcs := ip.2.data_mcs,
      mtchs := ip.2.mbms_session_info_list.map (fun s =>
        { tmgi := tmgi_string s.tmgi,
          dest := dests ip.1 s.lc_ch_id,
          lcid := s.lc_ch_id }) })

/-! ## Scheduling engine (`Phy::mbsfn_config_for_tti`, `Phy.cpp:324-382`) -/

/-- The decision record (`srsran_mbsfn_cfg_t` slice written by
`mbsfn_config_for_tti`).  The C function declares `srsran_mbsfn_cfg_t cfg`
on the stack and only ever assigns `enable`, `is_mcch`, `mbsfn_area_id`,
`non_mbsfn_region_length` and `mbsfn_mcs`; fields it leaves unassigned on
a path are modelled as `none`. -/
structure srsran_mbsfn_cfg_t where
  enable : Bool
  is_mcch : Bool
  mbsfn_area_id : Option Nat
  non_mbsfn_region_length : Option Nat
  mbsfn_mcs : Option Nat
  deriving DecidableEq, Repr

/-- The decision returned before any configuration is known
(`Phy.cpp:326-333`): only `enable` and `is_mcch` have been assigned. -/
def cfg_disabled : srsran_mbsfn_cfg_t :=
  { enable := false, is_mcch := false, mbsfn_area_id := none,
    non_mbsfn_region_length := none, mbsfn_mcs := none }

/-- MCCH-slot test of `Phy.cpp:344-345`:
`sfn % enum_to_number(mcch_repeat_period) == mcch_offset &&
 _mcch_table[sf] == 1` with `sfn = tti / 10`, `sf = tti % 10`. -/
def mcch_slot_match (st : PhyState) (tti : Nat) : Bool :=
  decide ((tti / 10) % st.area_info.mcch_cfg.mcch_repeat_period =
            st.area_info.mcch_cfg.mcch_offset) &&
  decide (st.mcch_table ⟨tti % 10, Nat.mod_lt tti (by decide)⟩ = 1)

/-- Channel allocation index of `Phy.cpp:357-363`, in the C `unsigned`
arithmetic of the source (wrap-around modulo `2^32`):
for a dedicated cell `fnp*10 + sf - fnp/4 - 1`, for a mixed cell
`fnp*6 + (sf < 6 ? sf - 1 : sf - 3)`, where `fnp` is
`fn_in_scheduling_period`. -/
def alloc_sf_idx (mbms_dedicated : Bool) (fnp sf : Nat) : Nat :=
  if mbms_dedicated then
    ((fnp * 10 + sf + U32) - (fnp / 4 + 1)) % U32
  else
    if sf < 6 then ((fnp * 6 + sf + U32) - 1) % U32
    else ((fnp * 6 + sf + U32) - 3) % U32

/-- Window test of `Phy.cpp:365`: `sf_idx <= sf_alloc_end` for channel `p`
(with `fn_in_scheduling_period = sfn % enum_to_number(mch_sched_period)`,
`Phy.cpp:357`). -/
def chan_match (mbms_dedicated : Bool) (sfn sf : Nat) (p : pmch_info_t) : Bool :=
  decide (alloc_sf_idx mbms_dedicated (sfn % p.mch_sched_period) sf ≤ p.sf_alloc_end)

/-- Signalling-subframe tie-break of `Phy.cpp:367-368`:
`(i == 0 && fn_in_scheduling_period == 0 && sf == 1) ||
 (i > 0 && pmch_info_list[i-1].sf_alloc_end + 1 == sf_idx)`. -/
def sig_cond (l : List pmch_info_t) (i fnp sf sfIdx : Nat) : Bool :=
  (decide (i = 0) && decide (fnp = 0) && decide (sf = 1)) ||
  (decide (0 < i) &&
    (match l.get? (i - 1) with
     | some q => decide (q.sf_alloc_end + 1 = sfIdx)
     | none => false))

/-- The channel loop of `Phy.cpp:356-378`
(`for i in [0, nof_pmch_info)`), started at index `i` with
`fuel ≥ l.length - i` steps available; yields
`some (channel index, signalling?, data_mcs)` for the first channel whose
window contains the subframe, `none` when the loop falls through. -/
def scan_from (mbms_dedicated : Bool) (sfn sf : Nat) (l : List pmch_info_t) :
    Nat → Nat → Option (Nat × Bool × Nat)
  | 0, _ => none
  | fuel + 1, i =>
      match l.get? i with
      | none => none
      | some p =>
          let fnp := sfn % p.mch_sched_period
          let sfIdx := alloc_sf_idx mbms_dedicated fnp sf
          if sfIdx ≤ p.sf_alloc_end then
            some (i, sig_cond l i fnp sf sfIdx, p.data_mcs)
          else
            scan_from mbms_dedicated sfn sf l fuel (i + 1)

/-- The decision record after `Phy.cpp:341-342` ran: `enable = false`,
`is_mcch = false`, `mbsfn_area_id` and `non_mbsfn_region_length` filled in
from SIB13, `mbsfn_mcs` still unassigned. -/
def cfg_base (ai : mbsfn_area_info_t) : srsran_mbsfn_cfg_t :=
  { enable := false, is_mcch := false,
    mbsfn_area_id := some ai.mbsfn_area_id,
    non_mbsfn_region_length := some ai.non_mbsfn_region_length,
    mbsfn_mcs := none }

/-- `Phy::mbsfn_config_for_tti` (`Phy.cpp:324-382`).  Returns the decision
together with the value the out-parameter `area` was set to (`none` when
the C function leaves `area` untouched).  The method reads but never
writes the object state, so the embedding is a pure function of
`(st, tti)`. -/
def mbsfn_config_for_tti (st : PhyState) (tti : Nat) :
    srsran_mbsfn_cfg_t × Option Nat :=
  if st.mcch_configured = false then (cfg_disabled, none)
  else
    let sfn := tti / 10
    let sf := tti % 10
    let ai := st.area_info
    if mcch_slot_match st tti = true then
      if st.decode_mcch = true then
        let mcch_cfg := { cfg_base ai with enable := true, is_mcch := true, mbsfn_mcs := some ai.mcch_cfg.sig_mcs }
        (mcch_cfg, none)
      else (cfg_base ai, none)
    else if st.mch_configured = true then
      match scan_from st.mbms_dedicated sfn sf st.mcch.pmch_info_list
              st.mcch.pmch_info_list.length 0 with
      | some idm =>
          let chan_cfg := { cfg_base ai with enable := true, mbsfn_mcs := some (if idm.2.1 then ai.mcch_cfg.sig_mcs else idm.2.2) }
          (chan_cfg, some idm.1)
      | none => (cfg_base ai, none)
    else (cfg_base ai, none)

/-- One call of `Phy::mbsfn_config_for_tti` as a state transformer.  The
method body (`Phy.cpp:324-382`) assigns only locals (`cfg`, `sfn`, `sf`,
`sf_idx`, `fn_in_scheduling_period`) and the out-parameter `area` — no
data member of `Phy` — so the post-state equals the pre-state. -/
def mbsfn_config_call (st : PhyState) (tti : Nat) :
    PhyState × (srsran_mbsfn_cfg_t × Option Nat) :=
  (st, mbsfn_config_for_tti st tti)

/-- A sequence of `mbsfn_config_for_tti` calls against one `Phy` object,
threading the object state through every call; returns the final state
and the list of per-call results. -/
def run_tti_calls (st : PhyState) : List Nat → PhyState × List (srsran_mbsfn_cfg_t × Option Nat)
  | [] => (st, [])
  | t :: ts =>
      let r := mbsfn_config_call st t
      let rest := run_tti_calls r.1 ts
      (rest.1, r.2 :: rest.2)

/-! ## Spec-side definitions (from the words of spec.md §4.4 step 2)

These mirror the specification text, to be compared with the embedding of
the source; `spec_alloc_index` is the spec formula over `ℤ` and
`spec_alloc_index_u32` its value in the 32-bit unsigned arithmetic the
source computes in. -/

/-- Spec §4.4: for multicast-dedicated cells
`allocIndex = periodFrame*10 + subframeIndex - floor(periodFrame/4) - 1`;
for mixed cells
`allocIndex = periodFrame*6 + (subframeIndex<6 ? subframeIndex-1 : subframeIndex-3)`. -/
def spec_alloc_index (mbms_dedicated : Bool) (periodFrame subframeIndex : Nat) : Int :=
  if mbms_dedicated then
    (periodFrame : Int) * 10 + subframeIndex - (periodFrame : Int) / 4 - 1
  else
    (periodFrame : Int) * 6 +
      (if subframeIndex < 6 then (subframeIndex : Int) - 1 else (subframeIndex : Int) - 3)

/-- The spec allocation index reduced to the unsigned 32-bit value the
code's `unsigned` arithmetic produces. -/
def spec_alloc_index_u32 (mbms_dedicated : Bool) (periodFrame subframeIndex : Nat) : Nat :=
  ((spec_alloc_index mbms_dedicated periodFrame subframeIndex) % (U32 : Int)).toNat

/-- Spec §4.4 step 2, as written: scan the channels in declared order with
`periodFrame = frameNumber mod schedulingPeriod(i)`; the TTI belongs to the
first channel whose `allocIndex ≤ allocationEndOffset(i)`; `none` when no
channel matches. -/
def spec_assign_from (mbms_dedicated : Bool) (sfn sf : Nat) (l : List pmch_info_t) :
    Nat → Nat → Option Nat
  | 0, _ => none
  | fuel + 1, i =>
      match l.get? i with
      | none => none
      | some p =>
          if spec_alloc_index_u32 mbms_dedicated (sfn % p.mch_sched_period) sf
              ≤ p.sf_alloc_end then some i
          else spec_assign_from mbms_dedicated sfn sf l fuel (i + 1)

/-- The spec-side channel assignment for a TTI. -/
def spec_assigned_channel (mbms_dedicated : Bool) (sfn sf : Nat)
    (l : List pmch_info_t) : Option Nat :=
  spec_assign_from mbms_dedicated sfn sf l l.length 0

/-! ## Helper lemmas about the scheduling engine -/

lemma mbsfn_config_not_configured (st : PhyState) (tti : Nat)
    (h : st.mcch_configured = false) :
    mbsfn_config_for_tti st tti = (cfg_disabled, none) := by
  simp [mbsfn_config_for_tti, h]

lemma mbsfn_config_slot_enabled (st : PhyState) (tti : Nat)
    (hC : st.mcch_configured = true) (hS : mcch_slot_match st tti = true)
    (hD : st.decode_mcch = true) :
    mbsfn_config_for_tti st tti =
      ({ cfg_base st.area_info with enable := true, is_mcch := true, mbsfn_mcs := some st.area_info.mcch_cfg.sig_mcs }, none) := by
  simp [mbsfn_config_for_tti, hC, hS, hD]

lemma mbsfn_config_slot_not_decoding (st : PhyState) (tti : Nat)
    (hC : st.mcch_configured = true) (hS : mcch_slot_match st tti = true)
    (hD : st.decode_mcch = false) :
    mbsfn_config_for_tti st tti = (cfg_base st.area_info, none) := by
  simp [mbsfn_config_for_tti, hC, hS, hD]

lemma mbsfn_config_chan (st : PhyState) (tti : Nat)
    (hC : st.mcch_configured = true) (hS : mcch_slot_match st tti = false)
    (hM : st.mch_configured = true) :
    mbsfn_config_for_tti st tti =
      match scan_from st.mbms_dedicated (tti / 10) (tti % 10)
              st.mcch.pmch_info_list st.mcch.pmch_info_list.length 0 with
      | some idm =>
          ({ cfg_base st.area_info with enable := true, mbsfn_mcs := some (if idm.2.1 then st.area_info.mcch_cfg.sig_mcs else idm.2.2) }, some idm.1)
      | none => (cfg_base st.area_info, none) := by
  simp [mbsfn_config_for_tti, hC, hS, hM]

lemma mbsfn_config_no_mch (st : PhyState) (tti : Nat)
    (hC : st.mcch_configured = true) (hS : mcch_slot_match st tti = false)
    (hM : st.mch_configured = false) :
    mbsfn_config_for_tti st tti = (cfg_base st.area_info, none) := by
  simp [mbsfn_config_for_tti, hC, hS, hM]

/-- The source's `unsigned` allocation index agrees with the spec formula
evaluated in 32-bit unsigned arithmetic. -/
lemma alloc_sf_idx_eq_spec (d : Bool) (fnp sf : Nat) :
    alloc_sf_idx d fnp sf = spec_alloc_index_u32 d fnp sf := by
  cases d with
  | false =>
      by_cases h : sf < 6 <;>
        simp only [alloc_sf_idx, spec_alloc_index_u32, spec_alloc_index, U32,
          Bool.false_eq_true, if_false, if_true, h, ite_true, ite_false] <;>
        omega
  | true =>
      simp only [alloc_sf_idx, spec_alloc_index_u32, spec_alloc_index, U32, if_true]
      omega

/-- The channel index found by the source loop is the spec's first-match
channel index. -/
lemma scan_from_map_fst (d : Bool) (sfn sf : Nat) (l : List pmch_info_t) :
    ∀ fuel i, (scan_from d sfn sf l fuel i).map (fun x => x.1) =
      spec_assign_from d sfn sf l fuel i := by
  intro fuel
  induction fuel with
  | zero => intro i; rfl
  | succ f ih =>
      intro i
      simp only [scan_from, spec_assign_from]
      cases h : l.get? i with
      | none => rfl
      | some p =>
          simp only [alloc_sf_idx_eq_spec]
          by_cases hc : spec_alloc_index_u32 d (sfn % p.mch_sched_period) sf ≤ p.sf_alloc_end
          · simp [hc]
          · simp [hc, ih]

/-- Characterization of a successful scan: the winning channel's data,
window test and signalling tie-break. -/
lemma scan_from_eq_some (d : Bool) (sfn sf : Nat) (l : List pmch_info_t) :
    ∀ fuel i j sig dm, scan_from d sfn sf l fuel i = some (j, sig, dm) →
      ∃ p, l.get? j = some p ∧
        alloc_sf_idx d (sfn % p.mch_sched_period) sf ≤ p.sf_alloc_end ∧
        dm = p.data_mcs ∧
        sig = sig_cond l j (sfn % p.mch_sched_period) sf
                (alloc_sf_idx d (sfn % p.mch_sched_period) sf) := by
  intro fuel
  induction fuel with
  | zero => intro i j sig dm h; exact absurd h (by simp [scan_from])
  | succ f ih =>
      intro i j sig dm h
      rw [scan_from] at h
      cases hg : l.get? i with
      | none => rw [hg] at h; exact absurd h (by simp)
      | some p =>
          rw [hg] at h
          simp only [] at h
          by_cases hc : alloc_sf_idx d (sfn % p.mch_sched_period) sf ≤ p.sf_alloc_end
          · rw [if_pos hc] at h
            simp only [Option.some.injEq, Prod.mk.injEq] at h
            obtain ⟨h1, h2, h3⟩ := h
            subst h1
            exact ⟨p, hg, hc, h3.symm, h2.symm⟩
          · rw [if_neg hc] at h
            exact ih (i + 1) j sig dm h

/-- If no channel window contains the subframe, the loop falls through. -/
lemma scan_from_none_of_no_match (d : Bool) (sfn sf : Nat) (l : List pmch_info_t)
    (h : ∀ p ∈ l, chan_match d sfn sf p = false) :
    ∀ fuel i, scan_from d sfn sf l fuel i = none := by
  intro fuel
  induction fuel with
  | zero => intro i; rfl
  | succ f ih =>
      intro i
      rw [scan_from]
      cases hg : l.get? i with
      | none => rfl
      | some p =>
          have hm : chan_match d sfn sf p = false := h p (List.get?_mem hg)
          simp only [chan_match, decide_eq_false_iff_not] at hm
          simp only [if_neg hm]
          exact ih (i + 1)

/-- Unfolding of the signalling tie-break to a proposition. -/
lemma sig_cond_eq_true_iff (l : List pmch_info_t) (i fnp sf sfIdx : Nat) :
    sig_cond l i fnp sf sfIdx = true ↔
      ((i = 0 ∧ fnp = 0 ∧ sf = 1) ∨
       (0 < i ∧ ∃ q, l.get? (i - 1) = some q ∧ q.sf_alloc_end + 1 = sfIdx)) := by
  cases hg : l.get? (i - 1) with
  | none =>
      unfold sig_cond
      rw [hg]
      simp only [Bool.or_eq_true, Bool.and_eq_true, decide_eq_true_eq]
      constructor
      · rintro (⟨⟨h1, h2⟩, h3⟩ | ⟨_, h⟩)
        · exact Or.inl ⟨h1, h2, h3⟩
        · exact absurd h (by simp)
      · rintro (⟨h1, h2, h3⟩ | ⟨_, q, hq, _⟩)
        · exact Or.inl ⟨⟨h1, h2⟩, h3⟩
        · exact absurd hq (by simp)
  | some q =>
      unfold sig_cond
      rw [hg]
      simp only [Bool.or_eq_true, Bool.and_eq_true, decide_eq_true_eq]
      constructor
      · rintro (⟨⟨h1, h2⟩, h3⟩ | ⟨h1, h2⟩)
        · exact Or.inl ⟨h1, h2, h3⟩
        · exact Or.inr ⟨h1, q, rfl, h2⟩
      · rintro (⟨h1, h2, h3⟩ | ⟨h1, q', hq, h2⟩)
        · exact Or.inl ⟨⟨h1, h2⟩, h3⟩
        · cases Option.some.inj hq
          exact Or.inr ⟨h1, h2⟩

/-! ## Claim theorems -/

/-- C2: For every TTI, in a multicast-dedicated cell `is_cas_subframe`
holds iff `tti % 40 = 0` and `is_mbsfn_subframe` iff `tti % 40 ≠ 0`; in a
mixed cell `is_cas_subframe` holds iff `tti % 10 ∈ {0,4,5,9}` and
`is_mbsfn_subframe` iff the subframe is not CAS and
`tti % 10 ∈ {1,2,3,6,7,8}`; and for every TTI exactly one of
{CAS, MBSFN-eligible, neither} holds. -/
theorem subframe_classifier_c2 (mbms_dedicated : Bool) (tti : Nat) :
    (is_cas_subframe true tti = true ↔ tti % 40 = 0) ∧
    (is_mbsfn_subframe true tti = true ↔ ¬ tti % 40 = 0) ∧
    (is_cas_subframe false tti = true ↔
      (tti % 10 = 0 ∨ tti % 10 = 4 ∨ tti % 10 = 5 ∨ tti % 10 = 9)) ∧
    (is_mbsfn_subframe false tti = true ↔
      (is_cas_subframe false tti = false ∧
       (tti % 10 = 1 ∨ tti % 10 = 2 ∨ tti % 10 = 3 ∨
        tti % 10 = 6 ∨ tti % 10 = 7 ∨ tti % 10 = 8))) ∧
    ((is_cas_subframe mbms_dedicated tti = true ∧ is_mbsfn_subframe mbms_dedicated tti = false) ∨
     (is_cas_subframe mbms_dedicated tti = false ∧ is_mbsfn_subframe mbms_dedicated tti = true) ∨
     (is_cas_subframe mbms_dedicated tti = false ∧ is_mbsfn_subframe mbms_dedicated tti = false)) := by
  refine ⟨?_, ?_, ?_, ?_, ?_⟩
  · simp [is_cas_subframe]
  · simp [is_mbsfn_subframe, is_cas_subframe]
  · simp [is_cas_subframe]
    tauto
  · simp [is_mbsfn_subframe]
    tauto
  · have hmc : is_mbsfn_subframe mbms_dedicated tti = true →
        is_cas_subframe mbms_dedicated tti = false := by
      cases mbms_dedicated <;> simp [is_mbsfn_subframe]
      tauto
    cases hc : is_cas_subframe mbms_dedicated tti <;>
      cases hm : is_mbsfn_subframe mbms_dedicated tti
    · exact Or.inr (Or.inr ⟨rfl, rfl⟩)
    · exact Or.inr (Or.inl ⟨rfl, rfl⟩)
    · exact Or.inl ⟨rfl, rfl⟩
    · exact absurd (hmc hm) (by rw [hc]; simp)

/-! ## Helper lemmas about the hex rendering -/

lemma hexDigitsRev_zero (fuel : Nat) : hexDigitsRev fuel 0 = [] := by
  cases fuel <;> rfl

lemma hexDigitsRev_small (fuel n : Nat) (h0 : 0 < n) (h16 : n < 16) (hf : 0 < fuel) :
    hexDigitsRev fuel n = [hexDigitChar n] := by
  cases fuel with
  | zero => omega
  | succ f =>
      cases n with
      | zero => omega
      | succ m =>
          show hexDigitChar ((m + 1) % 16) :: hexDigitsRev f ((m + 1) / 16) = _
          rw [Nat.mod_eq_of_lt h16, Nat.div_eq_of_lt h16, hexDigitsRev_zero]

lemma hexDigitsRev_length_le : ∀ (fuel n k : Nat), n < 16 ^ k →
    (hexDigitsRev fuel n).length ≤ k := by
  intro fuel
  induction fuel with
  | zero => intro n k _; simp [hexDigitsRev]
  | succ f ih =>
      intro n k h
      cases n with
      | zero => simp [hexDigitsRev_zero]
      | succ m =>
          cases k with
          | zero => simp at h
          | succ k' =>
              have hdiv : (m + 1) / 16 < 16 ^ k' := by
                rw [pow_succ] at h
                omega
              have := ih ((m + 1) / 16) k' hdiv
              show (hexDigitChar ((m + 1) % 16) :: hexDigitsRev f ((m + 1) / 16)).length ≤ k' + 1
              simp only [List.length_cons]
              omega

lemma toHexMinChars_small (n : Nat) (h : n < 16) :
    toHexMinChars n = [hexDigitChar n] := by
  by_cases h0 : n = 0
  · subst h0; decide
  · unfold toHexMinChars
    rw [if_neg h0, hexDigitsRev_small n n (Nat.pos_of_ne_zero h0) h (Nat.pos_of_ne_zero h0)]
    rfl

lemma toHexMinChars_two (n : Nat) (h1 : 16 ≤ n) (h2 : n < 256) :
    toHexMinChars n = [hexDigitChar (n / 16), hexDigitChar (n % 16)] := by
  have h0 : n ≠ 0 := by omega
  unfold toHexMinChars
  rw [if_neg h0]
  cases n with
  | zero => omega
  | succ m =>
      show (hexDigitChar ((m + 1) % 16) :: hexDigitsRev m ((m + 1) / 16)).reverse = _
      rw [hexDigitsRev_small m ((m + 1) / 16) (by omega) (by omega) (by omega)]
      rfl

lemma toHexMinChars_length_le (n k : Nat) (h : n < 16 ^ k) (hk : 0 < k) :
    (toHexMinChars n).length ≤ k := by
  by_cases h0 : n = 0
  · subst h0; simpa [toHexMinChars] using hk
  · unfold toHexMinChars
    rw [if_neg h0]
    simpa using hexDigitsRev_length_le n n k h

lemma sprintf0x_length (w n : Nat) (h : (toHexMinChars n).length ≤ w) :
    (sprintf0x w n).length = w := by
  simp [sprintf0x]
  omega

lemma sprintf0x_two (b : Nat) (h : b < 256) :
    sprintf0x 2 b = [hexDigitChar (b / 16), hexDigitChar (b % 16)] := by
  by_cases h16 : b < 16
  · have hd : b / 16 = 0 := Nat.div_eq_of_lt h16
    have hm : b % 16 = b := Nat.mod_eq_of_lt h16
    rw [sprintf0x, toHexMinChars_small b h16, hd, hm]
    rfl
  · rw [sprintf0x, toHexMinChars_two b (by omega) h]
    rfl

/-- C nibble packing `a << 4 | b` is plain place-value arithmetic for
in-range nibbles. -/
lemma nibble_pack : ∀ a < 16, ∀ b < 16, (a <<< 4) ||| b = 16 * a + b := by
  decide

/-! ## Concrete example configurations (for witnesses) -/

/-- One multicast channel: scheduling period 320ms = 32 radio frames,
`sf_alloc_end = 9`, data MCS 7, no sessions. -/
def exChannel : pmch_info_t :=
  { mch_sched_period := 32, sf_alloc_end := 9, data_mcs := 7,
    mbms_session_info_list := [] }

/-- Multicast-dedicated cell, SIB13 with `mcch_repeat_period = 32`,
`mcch_offset = 0`, signalling MCS 2, MCCH Table true exactly at
subframe 0, MCCH decoding enabled, one configured multicast channel. -/
def exState : PhyState :=
  { mbms_dedicated := true, mcch_configured := true, mch_configured := true,
    decode_mcch := true,
    area_info := { mbsfn_area_id := 1, non_mbsfn_region_length := 2,
                   mcch_cfg := { mcch_repeat_period := 32, mcch_offset := 0,
                                 sig_mcs := 2 } },
    mcch_table := fun i => if i.val = 0 then 1 else 0,
    mcch := { pmch_info_list := [exChannel] } }

/-- `exState` with MCCH never configured. -/
def exStateNoMcch : PhyState := { exState with mcch_configured := false }

/-- `exState` with an all-zero MCCH Table (so no TTI is an MCCH slot). -/
def exStateNoTable : PhyState := { exState with mcch_table := fun _ => 0 }

/-- C1: for every TTI that reaches the multicast-channel check (MCCH slot
did not match, MCCH configured, at least one channel configured), the TTI
is assigned to the first channel in declared order whose allocation index
(`periodFrame*10 + subframeIndex - periodFrame/4 - 1` for a dedicated
cell, `periodFrame*6 + (subframeIndex<6 ? subframeIndex-1 : subframeIndex-3)`
for a mixed cell, evaluated in the `unsigned` 32-bit arithmetic of the
source) is `≤ sf_alloc_end(i)`; scanning stops at that first match, and
the decision is enabled iff some channel matched. -/
theorem mbsfn_config_channel_first_match_c1 (st : PhyState) (tti : Nat)
    (hC : st.mcch_configured = true)
    (hS : mcch_slot_match st tti = false)
    (hM : st.mch_configured = true)
    (_hNE : st.mcch.pmch_info_list ≠ []) :
    (mbsfn_config_for_tti st tti).2 =
      spec_assigned_channel st.mbms_dedicated (tti / 10) (tti % 10)
        st.mcch.pmch_info_list ∧
    ((mbsfn_config_for_tti st tti).1.enable = true ↔
      spec_assigned_channel st.mbms_dedicated (tti / 10) (tti % 10)
        st.mcch.pmch_info_list ≠ none) := by
  have hconf := mbsfn_config_chan st tti hC hS hM
  have hmap := scan_from_map_fst st.mbms_dedicated (tti / 10) (tti % 10)
    st.mcch.pmch_info_list st.mcch.pmch_info_list.length 0
  unfold spec_assigned_channel
  cases hscan : scan_from st.mbms_dedicated (tti / 10) (tti % 10)
      st.mcch.pmch_info_list st.mcch.pmch_info_list.length 0 with
  | none =>
      rw [hscan] at hconf hmap
      rw [hconf]
      simp only [Option.map_none'] at hmap
      refine ⟨hmap, ?_⟩
      rw [← hmap]
      simp [cfg_base]
  | some idm =>
      rw [hscan] at hconf hmap
      rw [hconf]
      simp only [Option.map_some'] at hmap
      refine ⟨hmap, ?_⟩
      rw [← hmap]
      simp

/-- C1 witness: the claim's scenario — dedicated cell, one channel with
scheduling period 32 frames and `sf_alloc_end = 9`; at `tti = 11`
(`periodFrame = 1`, `subframeIndex = 1`) the allocation index is
`1*10 + 1 - 0 - 1 = 10 > 9`, so the TTI is not assigned to channel 0 and
the decision is disabled. -/
theorem mbsfn_config_channel_first_match_c1_witness :
    mcch_slot_match exState 11 = false ∧
    (mbsfn_config_for_tti exState 11).2 = none ∧
    (mbsfn_config_for_tti exState 11).1.enable = false := by
  have h := mbsfn_config_channel_first_match_c1 exState 11 (by decide) (by decide)
    (by decide) (by decide)
  refine ⟨by decide, ?_, ?_⟩
  · rw [h.1]; decide
  · cases hb : (mbsfn_config_for_tti exState 11).1.enable with
    | false => rfl
    | true => exact absurd (by decide) (h.2.mp hb)

/-- C3: for every TTI with MCCH configured whose frame satisfies the MCCH
repetition/offset test and whose subframe is marked in the MCCH Table, the
subframe is treated as MCCH: with decoding enabled the decision is
`{enable, is_mcch, mcs = signalling MCS, area id = SIB13 area id}`; with
decoding disabled the decision is disabled and the multicast-channel check
is not reached (the out-parameter stays untouched). -/
theorem mbsfn_config_mcch_slot_c3 (st : PhyState) (tti : Nat)
    (hC : st.mcch_configured = true)
    (hS : mcch_slot_match st tti = true) :
    (st.decode_mcch = true →
      mbsfn_config_for_tti st tti =
        ({ enable := true, is_mcch := true,
           mbsfn_area_id := some st.area_info.mbsfn_area_id,
           non_mbsfn_region_length := some st.area_info.non_mbsfn_region_length,
           mbsfn_mcs := some st.area_info.mcch_cfg.sig_mcs }, none)) ∧
    (st.decode_mcch = false →
      (mbsfn_config_for_tti st tti).1.enable = false ∧
      (mbsfn_config_for_tti st tti).1.is_mcch = false ∧
      (mbsfn_config_for_tti st tti).2 = none) := by
  constructor
  · intro hD
    rw [mbsfn_config_slot_enabled st tti hC hS hD]
    rfl
  · intro hD
    rw [mbsfn_config_slot_not_decoding st tti hC hS hD]
    exact ⟨rfl, rfl, rfl⟩

/-- C3 witness: the claim's scenario — `mcch_repeat_period = 32`,
`mcch_offset = 0`, MCCH Table true at subframe 0, decoding enabled; at
`tti = 0` the decision is `{enable := true, is_mcch := true}`. -/
theorem mbsfn_config_mcch_slot_c3_witness :
    mcch_slot_match exState 0 = true ∧
    (mbsfn_config_for_tti exState 0).1.enable = true ∧
    (mbsfn_config_for_tti exState 0).1.is_mcch = true := by
  have h := (mbsfn_config_mcch_slot_c3 exState 0 (by decide) (by decide)).1 (by decide)
  refine ⟨by decide, ?_, ?_⟩ <;> rw [h]

/-- The claim's signalling-subframe condition for channel `i` at `tti`
(spec §4.4 step 2 tie-break): the first subframe of channel 0's allocation
window (`periodFrame = 0` and `subframeIndex = 1`), or the subframe whose
allocation index immediately follows the end of the previous channel's
window. -/
def claim_sig_subframe (l : List pmch_info_t) (mbms_dedicated : Bool)
    (tti i : Nat) (p : pmch_info_t) : Prop :=
  (i = 0 ∧ (tti / 10) % p.mch_sched_period = 0 ∧ tti % 10 = 1) ∨
  (0 < i ∧ ∃ q, l.get? (i - 1) = some q ∧
    q.sf_alloc_end + 1 =
      alloc_sf_idx mbms_dedicated ((tti / 10) % p.mch_sched_period) (tti % 10))

/-- C4: for every TTI assigned to multicast channel `i`, the returned
coding scheme is the shared signalling coding scheme exactly on the
signalling subframes (`i = 0 ∧ periodFrame = 0 ∧ subframeIndex = 1`, or
`i > 0` and the allocation index equals `sf_alloc_end(i-1) + 1`), and the
channel's own data coding scheme on every other subframe of the window. -/
theorem mbsfn_config_sig_vs_data_c4 (st : PhyState) (tti i : Nat)
    (hC : st.mcch_configured = true)
    (hS : mcch_slot_match st tti = false)
    (hM : st.mch_configured = true)
    (hA : (mbsfn_config_for_tti st tti).2 = some i) :
    ∃ p, st.mcch.pmch_info_list.get? i = some p ∧
      ((claim_sig_subframe st.mcch.pmch_info_list st.mbms_dedicated tti i p ∧
        (mbsfn_config_for_tti st tti).1.mbsfn_mcs =
          some st.area_info.mcch_cfg.sig_mcs) ∨
       (¬ claim_sig_subframe st.mcch.pmch_info_list st.mbms_dedicated tti i p ∧
        (mbsfn_config_for_tti st tti).1.mbsfn_mcs = some p.data_mcs)) := by
  have hconf := mbsfn_config_chan st tti hC hS hM
  cases hscan : scan_from st.mbms_dedicated (tti / 10) (tti % 10)
      st.mcch.pmch_info_list st.mcch.pmch_info_list.length 0 with
  | none =>
      rw [hconf, hscan] at hA
      exact absurd hA (by simp)
  | some idm =>
      obtain ⟨j, sig, dm⟩ := idm
      rw [hconf, hscan] at hA
      have hji : j = i := by simpa using hA
      subst hji
      obtain ⟨p, hp, _, hdm, hsig⟩ :=
        scan_from_eq_some st.mbms_dedicated (tti / 10) (tti % 10)
          st.mcch.pmch_info_list st.mcch.pmch_info_list.length 0 j sig dm hscan
      refine ⟨p, hp, ?_⟩
      have hmcs : (mbsfn_config_for_tti st tti).1.mbsfn_mcs =
          some (if sig then st.area_info.mcch_cfg.sig_mcs else dm) := by
        rw [hconf, hscan]
      have hiff : sig = true ↔
          claim_sig_subframe st.mcch.pmch_info_list st.mbms_dedicated tti j p := by
        rw [hsig, sig_cond_eq_true_iff]
        unfold claim_sig_subframe
        tauto
      cases hb : sig with
      | true =>
          left
          refine ⟨hiff.mp hb, ?_⟩
          rw [hmcs, hb, if_pos rfl]
      | false =>
          right
          constructor
          · intro hcl
            rw [← hiff] at hcl
            rw [hb] at hcl
            exact Bool.false_ne_true hcl
          · rw [hmcs, hb, hdm]
            rfl

/-- C4 witness: in the example configuration, `tti = 1` (`periodFrame = 0`,
`subframeIndex = 1`) is channel 0's signalling subframe and gets the
signalling MCS 2; `tti = 2` is a data subframe of the same window and gets
the channel's data MCS 7. -/
theorem mbsfn_config_sig_vs_data_c4_witness :
    (mbsfn_config_for_tti exState 1).2 = some 0 ∧
    (mbsfn_config_for_tti exState 1).1.mbsfn_mcs = some 2 := by
  have h := mbsfn_config_sig_vs_data_c4 exState 1 0 (by decide) (by decide)
    (by decide) (by decide)
  refine ⟨by decide, ?_⟩
  obtain ⟨p, hp, hcase⟩ := h
  have hpe : p = exChannel := by
    have : (exState.mcch.pmch_info_list.get? 0) = some exChannel := by decide
    rw [this] at hp
    exact (Option.some.inj hp).symm
  subst hpe
  rcases hcase with ⟨_, hmcs⟩ | ⟨hns, _⟩
  · exact hmcs
  · exact absurd (Or.inl ⟨rfl, by decide, by decide⟩) hns

/-- C5: `mbsfn_config_for_tti` is total (the embedding is a total Lean
function over all of `Nat ⊇ [0, 2^32)`) and never fails: with MCCH never
configured it returns a decision with `enable = false` and
`is_mcch = false`, and when neither the MCCH slot nor any configured
channel window matches it likewise returns a disabled decision. -/
theorem mbsfn_config_total_disabled_c5 (st : PhyState) (tti : Nat)
    (h : st.mcch_configured = false ∨
      (mcch_slot_match st tti = false ∧
       ∀ p ∈ st.mcch.pmch_info_list,
         chan_match st.mbms_dedicated (tti / 10) (tti % 10) p = false)) :
    (mbsfn_config_for_tti st tti).1.enable = false ∧
    (mbsfn_config_for_tti st tti).1.is_mcch = false := by
  rcases h with h | ⟨hS, hnm⟩
  · rw [mbsfn_config_not_configured st tti h]
    exact ⟨rfl, rfl⟩
  · cases hC : st.mcch_configured with
    | false =>
        rw [mbsfn_config_not_configured st tti hC]
        exact ⟨rfl, rfl⟩
    | true =>
        cases hM : st.mch_configured with
        | false =>
            rw [mbsfn_config_no_mch st tti hC hS hM]
            exact ⟨rfl, rfl⟩
        | true =>
            have hsc := scan_from_none_of_no_match st.mbms_dedicated (tti / 10)
              (tti % 10) st.mcch.pmch_info_list hnm
              st.mcch.pmch_info_list.length 0
            rw [mbsfn_config_chan st tti hC hS hM, hsc]
            exact ⟨rfl, rfl⟩

/-- C5 witness: with MCCH never configured the decision at an arbitrary
TTI is disabled. -/
theorem mbsfn_config_total_disabled_c5_witness :
    (mbsfn_config_for_tti exStateNoMcch 123).1.enable = false ∧
    (mbsfn_config_for_tti exStateNoMcch 123).1.is_mcch = false :=
  mbsfn_config_total_disabled_c5 exStateNoMcch 123 (Or.inl (by decide))

/-- TMGI fields of the claim's example: MCC "901" (`mcc = {9,0,1}`),
MNC "56" (`mnc = {5,6}`, 2 digits), service id `0x000001`
(`serviced_id = {0,0,1}`). -/
def exTmgi : tmgi_t :=
  { serviced_id0 := 0, serviced_id1 := 0, serviced_id2 := 1,
    mcc0 := 9, mcc1 := 0, mcc2 := 1,
    mnc0 := 5, mnc1 := 6, mnc2 := 0,
    nof_mnc_digits := 2 }

/-- A session carrying `exTmgi` on logical channel 3. -/
def exSession : mbms_session_info_t := { tmgi := exTmgi, lc_ch_id := 3 }

/-- A one-channel MCCH message whose single session is `exSession`. -/
def exMcchMsg : mcch_msg_t :=
  { pmch_info_list := [{ mch_sched_period := 32, sf_alloc_end := 9, data_mcs := 7, mbms_session_info_list := [exSession] }] }

/-- C6 counterexample: for MCC "901", MNC "56" (2-digit) and service id
`0x000001` the code builds the TMGI string `"00000109f165"` — a 12-hex-digit
string, not the claimed fixed 16-hex-digit format, and not the claimed
`000001095 F61` pattern under any spacing/case reading; the registry built
by `set_mbsfn_config` carries exactly that string. -/
theorem tmgi_claim_pattern_false_c6 :
    tmgi_string exTmgi = "00000109f165" ∧
    (tmgi_string exTmgi).length = 12 ∧
    ¬ (tmgi_string exTmgi).length = 16 ∧
    tmgi_string exTmgi ≠ "000001095 F61" ∧
    tmgi_string exTmgi ≠ "000001095F61" ∧
    tmgi_string exTmgi ≠ "000001095f61" ∧
    set_mbsfn_config_mch_info (fun _ _ => "") exMcchMsg =
      [{ mcs := 7, mtchs := [{ tmgi := "00000109f165", dest := "", lcid := 3 }] }] := by
  decide

/-- C6 (amended): for every session, `set_mbsfn_config` builds the TMGI as
a 12-hex-digit string (`"%06x%02x%02x%02x"`): the 3-byte service identifier
as 6 hex digits, then three packed-nibble bytes — MCC digit 2 | MCC digit 1,
(MNC digit 3 or filler `0xF` for a 2-digit MNC) | MCC digit 3, and
MNC digit 2 | MNC digit 1; for MCC "901", MNC "56", service id `0x000001`
this yields `"00000109f165"`. -/
theorem tmgi_string_layout_c6 (t : tmgi_t)
    (hmcc0 : t.mcc0 ≤ 9) (hmcc1 : t.mcc1 ≤ 9) (hmcc2 : t.mcc2 ≤ 9)
    (hmnc0 : t.mnc0 ≤ 9) (hmnc1 : t.mnc1 ≤ 9) (hmnc2 : t.mnc2 ≤ 9)
    (hs0 : t.serviced_id0 < 256) (hs1 : t.serviced_id1 < 256)
    (hs2 : t.serviced_id2 < 256) :
    tmgi_string t = String.mk (
      sprintf0x 6 (t.serviced_id2 ||| (t.serviced_id1 <<< 8) ||| (t.serviced_id0 <<< 16)) ++
      [hexDigitChar t.mcc1, hexDigitChar t.mcc0,
       hexDigitChar (if t.nof_mnc_digits = 2 then 15 else t.mnc2),
       hexDigitChar t.mcc2, hexDigitChar t.mnc1, hexDigitChar t.mnc0]) ∧
    (tmgi_string t).length = 12 := by
  have hm2 : (if t.nof_mnc_digits = 2 then 15 else t.mnc2) ≤ 15 := by
    split
    · exact le_refl 15
    · omega
  have hp1 : sprintf0x 2 ((t.mcc1 <<< 4) ||| t.mcc0) =
      [hexDigitChar t.mcc1, hexDigitChar t.mcc0] := by
    rw [nibble_pack t.mcc1 (by omega) t.mcc0 (by omega),
      sprintf0x_two _ (by omega)]
    have hd : (16 * t.mcc1 + t.mcc0) / 16 = t.mcc1 := by omega
    have hm : (16 * t.mcc1 + t.mcc0) % 16 = t.mcc0 := by omega
    rw [hd, hm]
  have hp2 : sprintf0x 2 (((if t.nof_mnc_digits = 2 then 15 else t.mnc2) <<< 4) ||| t.mcc2) =
      [hexDigitChar (if t.nof_mnc_digits = 2 then 15 else t.mnc2),
       hexDigitChar t.mcc2] := by
    rw [nibble_pack _ (by omega) t.mcc2 (by omega), sprintf0x_two _ (by omega)]
    have hd : (16 * (if t.nof_mnc_digits = 2 then 15 else t.mnc2) + t.mcc2) / 16 =
        (if t.nof_mnc_digits = 2 then 15 else t.mnc2) := by omega
    have hm : (16 * (if t.nof_mnc_digits = 2 then 15 else t.mnc2) + t.mcc2) % 16 =
        t.mcc2 := by omega
    rw [hd, hm]
  have hp3 : sprintf0x 2 ((t.mnc1 <<< 4) ||| t.mnc0) =
      [hexDigitChar t.mnc1, hexDigitChar t.mnc0] := by
    rw [nibble_pack t.mnc1 (by omega) t.mnc0 (by omega),
      sprintf0x_two _ (by omega)]
    have hd : (16 * t.mnc1 + t.mnc0) / 16 = t.mnc1 := by omega
    have hm : (16 * t.mnc1 + t.mnc0) % 16 = t.mnc0 := by omega
    rw [hd, hm]
  have hsid : (t.serviced_id2 ||| (t.serviced_id1 <<< 8) ||| (t.serviced_id0 <<< 16)) < 16 ^ 6 := by
    have h1 : t.serviced_id2 < 2 ^ 24 := by omega
    have h2 : t.serviced_id1 <<< 8 < 2 ^ 24 := by
      rw [Nat.shiftLeft_eq]
      have : (2 : Nat) ^ 8 = 256 := by norm_num
      rw [this]
      have : (2 : Nat) ^ 24 = 16777216 := by norm_num
      rw [this]
      omega
    have h3 : t.serviced_id0 <<< 16 < 2 ^ 24 := by
      rw [Nat.shiftLeft_eq]
      have : (2 : Nat) ^ 16 = 65536 := by norm_num
      rw [this]
      have : (2 : Nat) ^ 24 = 16777216 := by norm_num
      rw [this]
      omega
    have h16 : (16 : Nat) ^ 6 = 2 ^ 24 := by norm_num
    rw [h16]
    exact Nat.or_lt_two_pow (Nat.or_lt_two_pow h1 h2) h3
  have h6 : (sprintf0x 6 (t.serviced_id2 ||| (t.serviced_id1 <<< 8) ||| (t.serviced_id0 <<< 16))).length = 6 :=
    sprintf0x_length 6 _ (toHexMinChars_length_le _ 6 hsid (by omega))
  constructor
  · unfold tmgi_string
    rw [hp1, hp2, hp3]
    simp [List.append_assoc]
  · unfold tmgi_string
    have hlen : ∀ l : List Char, (String.mk l).length = l.length := fun _ => rfl
    rw [hlen, hp1, hp2, hp3]
    simp only [List.length_append, h6, List.length_cons, List.length_nil]

/-- C6 witness: the amended layout instantiated at the claim's example
produces exactly `"00000109f165"`, of length 12. -/
theorem tmgi_string_layout_c6_witness :
    tmgi_string exTmgi = "00000109f165" ∧ (tmgi_string exTmgi).length = 12 := by
  have h := tmgi_string_layout_c6 exTmgi (by decide) (by decide) (by decide)
    (by decide) (by decide) (by decide) (by decide) (by decide) (by decide)
  refine ⟨?_, h.2⟩
  rw [h.1]
  decide

/-- A 6-PRB cell about to be committed by `cell_search`. -/
def exCell : CellPrb := { nof_prb := 6, mbsfn_prb := 0 }

/-- C7 counterexample: after the `cell_search` commit on a 6-PRB cell
(`mbsfn_prb = nof_prb = 6`), `set_mch_scheduling_info` with
`pmch_bandwidth = 100` overwrites `mbsfn_prb` to 100 while `nof_prb`
stays 6 — `mbsfn_prb ≤ nof_prb` does not remain true. -/
theorem mbsfn_prb_invariant_false_c7 :
    (cell_search_commit exCell).mbsfn_prb = (cell_search_commit exCell).nof_prb ∧
    (set_mch_scheduling_info_prb (cell_search_commit exCell) 100).nof_prb = 6 ∧
    (set_mch_scheduling_info_prb (cell_search_commit exCell) 100).mbsfn_prb = 100 ∧
    ¬ ((set_mch_scheduling_info_prb (cell_search_commit exCell) 100).mbsfn_prb ≤
       (set_mch_scheduling_info_prb (cell_search_commit exCell) 100).nof_prb) := by
  decide

/-- C7 (amended): immediately after a successful `cell_search` the
multicast resource-block count equals (hence is bounded by) the cell-wide
count; `set_mch_scheduling_info` overwrites `mbsfn_prb` with SIB13's
`pmch_bandwidth` whenever that value is nonzero (and leaves the cell
untouched otherwise) and `set_nof_mbsfn_prb` overwrites it with its
argument, in both cases leaving `nof_prb` unchanged and enforcing no upper
bound — so `mbsfn_prb ≤ nof_prb` is not preserved by the setters. -/
theorem mbsfn_prb_updates_c7 (c : CellPrb) (bw prb : Nat) :
    (cell_search_commit c).mbsfn_prb = (cell_search_commit c).nof_prb ∧
    (cell_search_commit c).mbsfn_prb ≤ (cell_search_commit c).nof_prb ∧
    set_mch_scheduling_info_prb c 0 = c ∧
    (bw ≠ 0 → (set_mch_scheduling_info_prb c bw).mbsfn_prb = bw) ∧
    (set_mch_scheduling_info_prb c bw).nof_prb = c.nof_prb ∧
    (set_nof_mbsfn_prb c prb).mbsfn_prb = prb ∧
    (set_nof_mbsfn_prb c prb).nof_prb = c.nof_prb := by
  refine ⟨rfl, le_refl _, ?_, ?_, ?_, rfl, rfl⟩
  · simp [set_mch_scheduling_info_prb]
  · intro h
    simp [set_mch_scheduling_info_prb, h]
  · by_cases h : bw = 0 <;> simp [set_mch_scheduling_info_prb, h]

/-- C7 witness: the amended update behaviour at `nof_prb = 6`,
`pmch_bandwidth = 100`. -/
theorem mbsfn_prb_updates_c7_witness :
    (cell_search_commit exCell).mbsfn_prb = (cell_search_commit exCell).nof_prb ∧
    (set_mch_scheduling_info_prb exCell 100).mbsfn_prb = 100 := by
  have h := mbsfn_prb_updates_c7 exCell 100 50
  exact ⟨h.1, h.2.2.2.1 (by decide)⟩

/-- C8: `synchronize_subframe` succeeds exactly when the next aligned
subframe is acquired (`zerocopy` returned 1), its subframe index is 0 and
the MIB re-decode returned 1; the stored TTI is then `SFN * 10` with
`SFN = (decoded + 4*offset) mod 1024` for a multicast-dedicated cell and
`SFN = (decoded + offset) mod 1024` for a mixed cell; any sync or decode
failure yields `false`. -/
theorem synchronize_subframe_c8 (ded : Bool) (r : Int) (sfi : Nat) (n : Int)
    (d : Nat) (o : Int) :
    ((synchronize_subframe ded r sfi n d o).isSome = true ↔
      (r = 1 ∧ sfi = 0 ∧ n = 1)) ∧
    (r = 1 → sfi = 0 → n = 1 →
      synchronize_subframe ded r sfi n d o =
        some ((((d : Int) + (if ded then 4 * o else o)) % 1024).toNat * 10)) := by
  have hdvd : (1024 : Int) ∣ (U32 : Int) := by norm_num [U32]
  constructor
  · unfold synchronize_subframe
    split_ifs with h1 h2 h3 h4
    all_goals simp_all
    all_goals omega
  · intro hr hsfi hn
    subst hr; subst hsfi; subst hn
    unfold synchronize_subframe
    rw [if_neg (by norm_num), if_pos rfl, if_pos rfl, if_pos rfl]
    cases ded with
    | true =>
        simp only [if_pos rfl]
        rw [Int.emod_emod_of_dvd _ hdvd, Int.mul_comm o 4]
        simp
    | false =>
        simp only [Bool.false_eq_true, if_neg, ite_false]
        rw [Int.emod_emod_of_dvd _ hdvd]

/-- C8 witness: a dedicated cell, aligned subframe (`ret = 1`), subframe
index 0, successful re-decode, decoded SFN 1000 and offset 7:
`SFN = (1000 + 28) mod 1024 = 4`, stored TTI `40`. -/
theorem synchronize_subframe_c8_witness :
    synchronize_subframe true 1 0 1 1000 7 = some 40 := by
  have h := (synchronize_subframe_c8 true 1 0 1 1000 7).2 rfl rfl rfl
  rw [h]
  decide

/-- C9: `mbsfn_config_for_tti` is deterministic and side-effect free: for
a fixed configuration, a sequence of calls leaves the `Phy` state
unchanged and every call's result is a function of the initial state and
its own TTI alone — identical TTIs get identical decisions regardless of
call order or intervening calls. -/
theorem mbsfn_config_pure_c9 (st : PhyState) (ttis : List Nat) :
    (run_tti_calls st ttis).1 = st ∧
    (run_tti_calls st ttis).2 = ttis.map (fun t => mbsfn_config_for_tti st t) := by
  induction ttis with
  | nil => exact ⟨rfl, rfl⟩
  | cons t ts ih =>
      refine ⟨?_, ?_⟩ <;> simp [run_tti_calls, mbsfn_config_call, ih.1, ih.2]

/-- C10: at subframe index 0 of frame 0 of a channel's scheduling period
the channel allocation-index computation underflows in unsigned 32-bit
arithmetic — `0*10 + 0 - 0 - 1` (dedicated) and `0*6 + (0 - 1)` (mixed)
both wrap to `2^32 - 1` — so `allocIndex ≤ sf_alloc_end` is false for every
`sf_alloc_end` representable in its `uint16_t` field and such a subframe is
assigned to no channel; the function still returns a (disabled) decision,
the arithmetic being modulo `2^32` rather than faulting. -/
theorem alloc_underflow_c10 (st : PhyState) (tti : Nat)
    (hsf : tti % 10 = 0)
    (hC : st.mcch_configured = true)
    (hS : mcch_slot_match st tti = false)
    (hch : ∀ p ∈ st.mcch.pmch_info_list,
      (tti / 10) % p.mch_sched_period = 0 ∧ p.sf_alloc_end < 65536) :
    alloc_sf_idx true 0 0 = 2 ^ 32 - 1 ∧
    alloc_sf_idx false 0 0 = 2 ^ 32 - 1 ∧
    (∀ p ∈ st.mcch.pmch_info_list,
      chan_match st.mbms_dedicated (tti / 10) (tti % 10) p = false) ∧
    (mbsfn_config_for_tti st tti).2 = none ∧
    (mbsfn_config_for_tti st tti).1.enable = false := by
  have halloc : ∀ d : Bool, alloc_sf_idx d 0 0 = 2 ^ 32 - 1 := by
    intro d
    cases d <;> decide
  have hnm : ∀ p ∈ st.mcch.pmch_info_list,
      chan_match st.mbms_dedicated (tti / 10) (tti % 10) p = false := by
    intro p hp
    obtain ⟨hfnp, he⟩ := hch p hp
    simp only [chan_match, decide_eq_false_iff_not]
    rw [hsf, hfnp, halloc]
    omega
  have hres : mbsfn_config_for_tti st tti = (cfg_base st.area_info, none) := by
    cases hM : st.mch_configured with
    | false => exact mbsfn_config_no_mch st tti hC hS hM
    | true =>
        have hsc := scan_from_none_of_no_match st.mbms_dedicated (tti / 10)
          (tti % 10) st.mcch.pmch_info_list hnm st.mcch.pmch_info_list.length 0
        rw [mbsfn_config_chan st tti hC hS hM, hsc]
  exact ⟨halloc true, halloc false, hnm, by rw [hres], by rw [hres]; rfl⟩

/-- C10 witness: the example configuration with an all-zero MCCH Table at
`tti = 0` (subframe 0, frame 0 of the 32-frame period): no channel is
assigned and the decision is disabled. -/
theorem alloc_underflow_c10_witness :
    (mbsfn_config_for_tti exStateNoTable 0).2 = none ∧
    (mbsfn_config_for_tti exStateNoTable 0).1.enable = false := by
  have h := alloc_underflow_c10 exStateNoTable 0 (by decide) (by decide)
    (by decide) (by decide)
  exact ⟨h.2.2.2.1, h.2.2.2.2⟩
